import Mathlib

/-
Verification of the streaming completion engine and inference session state
machine of the `playground` chat client (Rust sources `src/openai.rs` and
`src/chat.rs`), as a shallow embedding in Lean 4.

Modelling conventions:
- `iced::widget::text_editor::Content` is modelled by its text.  Every edit the
  engine itself performs is an `Edit::Paste` on a content whose cursor sits at
  the end (the content is either freshly created or only ever grown by such
  pastes), so a paste is modelled as appending to the text.
- `iced::Task` return values are modelled by an explicit list of commands
  (`ChatCmd`); `Task::none()` is the empty list.
- A Rust panic (out-of-bounds `Vec` index in `self.messages[index]` or
  `Vec::remove`) is modelled by `Option`: `none` is a panic.
- `serde_json::from_str::<Value>` is external library code; it is a parameter
  `from_str : String → Option Json` of the parser (`none` = malformed JSON).
- `f32` values (temperature, ui_scale) are carried verbatim by the engine and
  never computed with; they are modelled as `Rat`.
- `task::Handle` is opaque; creation of a subscription together with its abort
  handle is visible as the `ChatCmd.startStream` command that `Run` returns.
-/

namespace Playground

/-! ## openai.rs : data model -/

/-- `Role` (src/openai.rs:13-17). -/
inductive Role where
  | system
  | user
  | assistant
deriving DecidableEq, Repr

/-- `Message` (src/openai.rs:26-29). -/
structure Message where
  content : String
  role : Role
deriving DecidableEq, Repr

/-- `CompletionRequest` (src/openai.rs:32-38). -/
structure CompletionRequest where
  messages : List Message
  model : String
  max_tokens : Nat
  stream : Bool
  temperature : Rat
deriving DecidableEq, Repr

/-- `CompletionRequest::new` (src/openai.rs:41-49): forces `stream := true`. -/
def CompletionRequest.new (messages : List Message) (model : String)
    (max_tokens : Nat) (temperature : Rat) : CompletionRequest :=
  { messages := messages
    model := model
    max_tokens := max_tokens
    stream := true
    temperature := temperature }

/-! ## serde_json values and the pointer lookup -/

/-- A `serde_json::Value`. -/
inductive Json where
  | null
  | bool (b : Bool)
  | num (q : Rat)
  | str (s : String)
  | arr (elems : List Json)
  | obj (fields : List (String × Json))

/-- Object field lookup, one step of `Value::pointer`. -/
def Json.get? : Json → String → Option Json
  | .obj fields, key => fields.lookup key
  | _, _ => none

/-- Array index lookup, one step of `Value::pointer`. -/
def Json.at? : Json → Nat → Option Json
  | .arr elems, i => elems.get? i
  | _, _ => none

/-- `value.pointer("/choices/0/delta/content")` (src/openai.rs:89). -/
def Json.pointerDelta (v : Json) : Option Json :=
  (v.get? ("choices")).bind fun cs =>
    (cs.at? 0).bind fun c0 =>
      (c0.get? ("delta")).bind fun d =>
        d.get? ("content")

/-- `Value::as_str` (src/openai.rs:90). -/
def Json.as_str : Json → Option String
  | .str s => some s
  | _ => none

/-! ## openai.rs : the completions stream pipeline -/

/-- `reqwest_eventsource::Event`. -/
inductive Event where
  | opened
  | message (data : String)
deriving DecidableEq, Repr

/-- `reqwest_eventsource::Error`, split into the benign `StreamEnded` variant
    and every other (transport/protocol) error carrying its rendered message. -/
inductive ESError where
  | streamEnded
  | transport (msg : String)
deriving DecidableEq, Repr

/-- `err.to_string()` for an eventsource error (the exact text of the
    `StreamEnded` rendering is irrelevant: it is filtered out before this). -/
def ESError.toMessage : ESError → String
  | .streamEnded => "Stream ended"
  | .transport msg => msg

/-- The `take_while` predicate of `completions` (src/openai.rs:75-77):
    `!matches!(res, Err(reqwest_eventsource::Error::StreamEnded))`. -/
def notStreamEnded : Except ESError Event → Bool
  | .error .streamEnded => false
  | _ => true

/-- The body of the `try_filter_map` closure in `completions`
    (src/openai.rs:79-97), for one event.  `from_str` stands for
    `serde_json::from_str::<Value>` (`none` = parse failure, whose serde error
    message is abbreviated here).  The `Delta not found` message elides the
    pretty-printed value that the source interpolates. -/
def deltaOfEvent (from_str : String → Option Json) : Event → Except String (Option String)
  | .message data =>
      if data = "[DONE]" then .ok none
      else
        match from_str data with
        | none => .error ("invalid JSON: " ++ data)
        | some value =>
            match (value.pointerDelta).bind Json.as_str with
            | some s => .ok (some s)
            | none => .error ("Delta not found within:\n")
  | _ => .ok none

/-- URL construction in `completions` (src/openai.rs:58-67): append
    `v1/chat/completions`, inserting a `/` unless the base already ends in
    one (`base_url.chars().last()`). -/
def completionsUrl (base_url : String) : String :=
  match base_url.data.getLast? with
  | some '/' => base_url ++ "v1/chat/completions"
  | _ => base_url ++ "/" ++ "v1/chat/completions"

/-- The item pipeline of `completions` (src/openai.rs:69-98) over the sequence
    of eventsource results: stop at the benign `StreamEnded`, convert every
    remaining error to its message, drop `[DONE]`/ignored events, and emit each
    delta or parse failure. -/
def completions (from_str : String → Option Json)
    (items : List (Except ESError Event)) : List (Except String String) :=
  (items.takeWhile notStreamEnded).filterMap fun r =>
    match r with
    | .error e => some (.error e.toMessage)
    | .ok ev =>
        match deltaOfEvent from_str ev with
        | .error msg => some (.error msg)
        | .ok none => none
        | .ok (some s) => some (.ok s)

/-! ## settings.rs : the parts the chat engine reads -/

/-- `Parsable<T>` (src/settings.rs:13-16). -/
structure Parsable (T : Type) where
  content : String
  parsed : Option T
deriving DecidableEq, Repr

/-- `Parsable::new` (src/settings.rs:19-26). -/
def Parsable.new {T : Type} [ToString T] (object : T) : Parsable T :=
  { content := toString object, parsed := some object }

/-- `SerializedSettings` (src/settings.rs:92-100). -/
structure SerializedSettings where
  base_url : String
  api_key : String
  model : String
  max_tokens : Parsable Nat
  temperature : Parsable Rat
  ui_scale : Rat
deriving DecidableEq, Repr

/-- `SerializedSettings::default` (src/settings.rs:102-113). -/
def SerializedSettings.default : SerializedSettings :=
  { base_url := ""
    api_key := ""
    model := ""
    max_tokens := Parsable.new 1000
    temperature := Parsable.new 0
    ui_scale := 100 }

/-- `SettingsState` (src/settings.rs:147-152). -/
structure SettingsState where
  saved_settings : SerializedSettings
  live_settings : SerializedSettings
deriving DecidableEq, Repr

/-- `SettingsState::default` (derived `Default`, src/settings.rs:146). -/
def SettingsState.default : SettingsState :=
  { saved_settings := SerializedSettings.default
    live_settings := SerializedSettings.default }

/-- `SettingsState::saved` (src/settings.rs:165-167). -/
def SettingsState.saved (s : SettingsState) : SerializedSettings :=
  s.saved_settings

/-- `SettingsView` (src/settings.rs:170-173). -/
inductive SettingsView where
  | loading
  | loaded (state : SettingsState)

/-- `SettingsView::settings` (src/settings.rs:186-191). -/
def SettingsView.settings : SettingsView → SettingsState
  | .loading => SettingsState.default
  | .loaded state => state

/-! ## chat.rs : the inference session state machine -/

/-- `UiChatMsg` (src/chat.rs:33-36); the editor content is its text. -/
structure UiChatMsg where
  role : Role
  content : String
deriving DecidableEq, Repr

/-- `InferenceStatus` (src/chat.rs:96-102).  The `abort_handle` held by
    `Inferencing` is opaque and carries no observable state. -/
inductive InferenceStatus where
  | idle
  | inferencing
deriving DecidableEq, Repr

/-- `ChatView` (src/chat.rs:104-108). -/
structure ChatView where
  messages : List UiChatMsg
  inference_status : InferenceStatus
  stick_to_bottom : Bool
deriving DecidableEq, Repr

/-- `ChatView::new` (src/chat.rs:111-122). -/
def ChatView.new : ChatView :=
  { messages := [{ role := .user, content := "" }]
    inference_status := .idle
    stick_to_bottom := false }

/-- An `iced::widget::text_editor::Action`, modelled by its effect on the
    content text (the engine itself only ever performs `Edit::Paste`, which
    appends; user actions are arbitrary text transformations). -/
def EditorAction : Type := String → String

/-- `ChatViewMsg` (src/chat.rs:11-31), with `Completion`'s
    `Result<String, String>` as `Except String String`. -/
inductive ChatViewMsg where
  | changeRole (index : Nat) (role : Role)
  | editText (index : Nat) (action : EditorAction)
  | addMessage
  | deleteMessage (index : Nat)
  | run
  | stop
  | completion (delta : Except String String)
  | stickToBottom (value : Bool)

/-- The observable effect of a `Task` returned by `ChatView::update`.
    `startStream url_base key req` is
    `Task::stream(openai::completions(url_base, key, req)).map(..).chain(Task::done(Stop)).abortable()`
    (src/chat.rs:168-184): it opens exactly one subscription and creates
    exactly one abort handle. -/
inductive ChatCmd where
  | startStream (base_url : String) (api_key : String) (req : CompletionRequest)
deriving DecidableEq, Repr

/-- The error block pasted on a failed delta (src/chat.rs:210). -/
def errorBlock (err : String) : String :=
  "\n\nRan into an error:\n" ++ err

/-- `ChatView::update` (src/chat.rs:124-223).  Result `none` models a panic
    (out-of-bounds index on `self.messages` / `Vec::remove`); otherwise the
    new state together with the commands of the returned `Task`. -/
def ChatView.update (self : ChatView) (settings_view : SettingsView)
    (msg : ChatViewMsg) : Option (ChatView × List ChatCmd) :=
  match msg with
  | .changeRole index role =>
      if self.inference_status = .idle then
        if h : index < self.messages.length then
          some ({ self with
                    messages := self.messages.set index
                      { self.messages.get ⟨index, h⟩ with role := role } }, [])
        else none
      else some (self, [])
  | .editText index action =>
      if h : index < self.messages.length then
        some ({ self with
                  messages := self.messages.set index
                    { self.messages.get ⟨index, h⟩ with
                        content := action (self.messages.get ⟨index, h⟩).content } }, [])
      else none
  | .addMessage =>
      some ({ self with messages := self.messages ++ [{ role := .user, content := "" }] }, [])
  | .deleteMessage index =>
      if index < self.messages.length then
        some ({ self with messages := self.messages.eraseIdx index }, [])
      else none
  | .run =>
      let saved := settings_view.settings.saved
      let req := CompletionRequest.new
        (self.messages.map fun ui_msg => { content := ui_msg.content, role := ui_msg.role })
        saved.model
        (saved.max_tokens.parsed.getD 0)
        (saved.temperature.parsed.getD 0)
      let started := { self with inference_status := InferenceStatus.inferencing }
      let is_last_msg_assistant : Bool :=
        match started.messages.getLast? with
        | some m => decide (m.role = .assistant)
        | none => false
      some
        (if is_last_msg_assistant then started
         else { started with
                  messages := started.messages ++ [{ role := .assistant, content := "" }] },
         [ChatCmd.startStream saved.base_url saved.api_key req])
  | .stop =>
      some ({ self with inference_status := .idle }, [])
  | .completion delta =>
      match self.messages.getLast? with
      | none => some (self, [])
      | some last =>
          match delta with
          | .ok s =>
              some ({ self with
                        messages := self.messages.dropLast
                          ++ [{ last with content := last.content ++ s }] }, [])
          | .error err =>
              some ({ self with
                        messages := self.messages.dropLast
                          ++ [{ last with content := last.content ++ errorBlock err }]
                        inference_status := .idle }, [])
  | .stickToBottom value =>
      some ({ self with stick_to_bottom := value }, [])

/-- Fold a list of messages through `ChatView.update`, dropping the commands
    (`none` as soon as any step panics). -/
def ChatView.updates (self : ChatView) (settings_view : SettingsView) :
    List ChatViewMsg → Option ChatView
  | [] => some self
  | m :: ms =>
      match self.update settings_view m with
      | none => none
      | some (s, _) => s.updates settings_view ms

/-- The messages the `Run` task delivers to the session: each stream item
    mapped to `Completion`, then the chained `Stop` (src/chat.rs:175-180). -/
def runTaskMsgs (items : List (Except String String)) : List ChatViewMsg :=
  items.map ChatViewMsg.completion ++ [ChatViewMsg.stop]

/-! ## Helper lemmas -/

/-- A `Completion` delivered to a non-empty conversation edits exactly the
    trailing message: a successful delta appends it and keeps the status, a
    failed delta appends the error block and moves to `Idle`. -/
theorem update_completion_concat (sv : SettingsView) (ms : List UiChatMsg)
    (m : UiChatMsg) (st : InferenceStatus) (sb : Bool) (d : Except String String) :
    ChatView.update ⟨ms ++ [m], st, sb⟩ sv (.completion d) =
      some (⟨ms ++ [{ m with content := m.content ++
                (match d with | .ok s => s | .error e => errorBlock e) }],
             (match d with | .ok _ => st | .error _ => .idle), sb⟩, []) := by
  cases d <;> simp [ChatView.update]

/-- Folding successful fragments through the session appends their
    concatenation to the trailing message, for any starting content. -/
theorem updates_fragments_foldl (sv : SettingsView) (ms : List UiChatMsg)
    (r : Role) (sb : Bool) (frags : List String) : ∀ c : String,
    ChatView.updates ⟨ms ++ [⟨r, c⟩], .inferencing, sb⟩ sv
        (frags.map fun f => ChatViewMsg.completion (.ok f)) =
      some ⟨ms ++ [⟨r, frags.foldl (· ++ ·) c⟩], .inferencing, sb⟩ := by
  induction frags with
  | nil => intro c; simp [ChatView.updates]
  | cons f rest ih =>
      intro c
      simp only [List.map_cons, ChatView.updates, update_completion_concat, List.foldl_cons]
      exact ih (c ++ f)

/-! ## Claims -/

/-- C2: fragments `f1..fn` delivered without error to a session whose append
    target starts empty are applied in delivery order: the target's content
    becomes the exact concatenation `f1 ++ f2 ++ ... ++ fn`, every step keeps
    the status `Inferencing`, and all other messages are unchanged. -/
theorem fragment_concatenation (sv : SettingsView) (ms : List UiChatMsg)
    (r : Role) (sb : Bool) (frags : List String) :
    ChatView.updates ⟨ms ++ [⟨r, ""⟩], .inferencing, sb⟩ sv
        (frags.map fun f => ChatViewMsg.completion (.ok f)) =
      some ⟨ms ++ [⟨r, frags.foldl (· ++ ·) ""⟩], .inferencing, sb⟩ :=
  updates_fragments_foldl sv ms r sb frags ""

/-- C3: a terminal `StreamError` with message `err` appends exactly
    `"\n\nRan into an error:\n" ++ err` to the append target and moves the
    status to `Idle`; concretely, `"connection reset"` after fragments
    `"Hel"`, `"lo"` on an initially empty target ends with content
    `"Hello\n\nRan into an error:\nconnection reset"` and status `Idle`. -/
theorem stream_error_appends_block :
    (∀ (sv : SettingsView) (ms : List UiChatMsg) (r : Role) (c : String)
       (sb : Bool) (err : String),
       ChatView.update ⟨ms ++ [⟨r, c⟩], .inferencing, sb⟩ sv
           (.completion (.error err)) =
         some (⟨ms ++ [⟨r, c ++ ("\n\nRan into an error:\n" ++ err)⟩], .idle, sb⟩, [])) ∧
    ChatView.updates
        ⟨[⟨.user, "q"⟩, ⟨.assistant, ""⟩], .inferencing, false⟩ .loading
        [.completion (.ok ("Hel")), .completion (.ok ("lo")),
         .completion (.error ("connection reset"))] =
      some ⟨[⟨.user, "q"⟩,
             ⟨.assistant, "Hello\n\nRan into an error:\nconnection reset"⟩],
            .idle, false⟩ := by
  constructor
  · intro sv ms r c sb err
    exact update_completion_concat sv ms ⟨r, c⟩ .inferencing sb (.error err)
  · rfl

/-- C8: the stream adapter appends `v1/chat/completions` to `base_url`,
    inserting a separating `/` exactly when the base does not already end in
    one; both example bases resolve to
    `https://api.example.com/v1/chat/completions`. -/
theorem url_normalization :
    completionsUrl ("https://api.example.com") =
        "https://api.example.com/v1/chat/completions" ∧
    completionsUrl ("https://api.example.com/") =
        "https://api.example.com/v1/chat/completions" ∧
    (∀ b : String,
      completionsUrl b =
        if b.data.getLast? = some '/' then b ++ "v1/chat/completions"
        else b ++ "/" ++ "v1/chat/completions") := by
  refine ⟨rfl, rfl, fun b => ?_⟩
  unfold completionsUrl
  split
  · next heq => rw [heq]; simp
  · next hne =>
      rw [if_neg ?_]
      intro hcontra
      exact hne hcontra

/-- C9: when the conversation is empty, a `Completion` event is silently
    dropped: a fragment changes nothing, and a terminal error appends no
    text and leaves the status `Inferencing`. -/
theorem empty_conversation_drops_completions
    (sv : SettingsView) (sb : Bool) (d : Except String String) :
    ChatView.update ⟨[], .inferencing, sb⟩ sv (.completion d) =
      some (⟨[], .inferencing, sb⟩, []) := by
  cases d <;> rfl

/-- A session that is inferencing on a one-user-message conversation. -/
def infStateOneUser : ChatView :=
  ⟨[⟨.user, "q"⟩], .inferencing, false⟩

/-- A session that is inferencing on a two-user-message conversation. -/
def infStateTwoUsers : ChatView :=
  ⟨[⟨.user, "a"⟩, ⟨.user, "b"⟩], .inferencing, false⟩

/-- An idle session with a two-user-message conversation. -/
def idleStateTwo : ChatView :=
  ⟨[⟨.user, "a"⟩, ⟨.user, "b"⟩], .idle, false⟩

/-- C1 is false on the code: delivering `Run` to a session whose status is
    `Inferencing` is not refused — the update emits a `startStream` command
    (a second subscription with its own abort handle) and pushes a new
    append-target message, instead of leaving the state as a rejected
    request would. -/
theorem run_while_inferencing_cx :
    infStateOneUser.inference_status = .inferencing ∧
    infStateOneUser.update .loading .run =
      some (⟨[⟨.user, "q"⟩, ⟨.assistant, ""⟩], .inferencing, false⟩,
            [ChatCmd.startStream ("") ("")
              (CompletionRequest.new ([⟨"q", .user⟩]) ("") 1000 0)]) ∧
    ([⟨.user, "q"⟩, ⟨.assistant, ""⟩] : List UiChatMsg) ≠ infStateOneUser.messages :=
  ⟨rfl, rfl, by decide⟩

/-- C1 (amended): the `Run` arm performs no status check, so a `Run`
    delivered while `Inferencing` starts a new generation: exactly one new
    subscription/abort handle is created (replacing the old handle, which is
    dropped and aborts the previous stream), and the status stays
    `Inferencing`.  `Run` while inferencing is prevented only by the view
    layer, which shows `Stop` instead of the `Run` button. -/
theorem run_while_inferencing_starts_stream (s : ChatView) (sv : SettingsView)
    (_h : s.inference_status = .inferencing) :
    ∃ (s' : ChatView) (url key : String) (req : CompletionRequest),
      s.update sv .run = some (s', [ChatCmd.startStream url key req]) ∧
      s'.inference_status = .inferencing := by
  refine ⟨_, _, _, _, rfl, ?_⟩
  split <;> rfl

/-- Witness for C1's amended theorem at a concrete inferencing session. -/
theorem run_while_inferencing_starts_stream_witness :
    infStateOneUser.inference_status = .inferencing ∧
    ∃ (s' : ChatView) (url key : String) (req : CompletionRequest),
      infStateOneUser.update .loading .run =
        some (s', [ChatCmd.startStream url key req]) ∧
      s'.inference_status = .inferencing :=
  ⟨rfl, run_while_inferencing_starts_stream infStateOneUser .loading rfl⟩

/-- C4 is false on the code: while `Inferencing`, an in-range
    `DeleteMessage` is applied (the message list shrinks), not rejected —
    only the role change is gated on the status. -/
theorem delete_while_inferencing_cx :
    infStateTwoUsers.inference_status = .inferencing ∧
    infStateTwoUsers.update .loading (.deleteMessage 0) =
      some (⟨[⟨.user, "b"⟩], .inferencing, false⟩, []) ∧
    ([⟨.user, "b"⟩] : List UiChatMsg) ≠ infStateTwoUsers.messages :=
  ⟨rfl, rfl, by decide⟩

/-- C4 (amended): while `Inferencing`, a role change on any index is
    rejected by the state machine (state unchanged, even out of range), but
    message deletion is not gated: an in-range delete removes exactly that
    message even while `Inferencing` (the view layer merely disables the
    delete control). -/
theorem inferencing_gating (s : ChatView) (sv : SettingsView)
    (h : s.inference_status = .inferencing) :
    (∀ (i : Nat) (r : Role), s.update sv (.changeRole i r) = some (s, [])) ∧
    (∀ i : Nat, i < s.messages.length →
       s.update sv (.deleteMessage i) =
         some ({ s with messages := s.messages.eraseIdx i }, [])) := by
  constructor
  · intro i r
    simp [ChatView.update, h]
  · intro i hi
    simp [ChatView.update, hi]

/-- Witness for C4's amended theorem at a concrete inferencing session. -/
theorem inferencing_gating_witness :
    infStateTwoUsers.inference_status = .inferencing ∧
    (0 : Nat) < infStateTwoUsers.messages.length ∧
    infStateTwoUsers.update .loading (.changeRole 0 .system) =
      some (infStateTwoUsers, []) ∧
    infStateTwoUsers.update .loading (.deleteMessage 0) =
      some ({ infStateTwoUsers with
                messages := infStateTwoUsers.messages.eraseIdx 0 }, []) :=
  ⟨rfl, by decide,
   (inferencing_gating infStateTwoUsers .loading rfl).1 0 .system,
   (inferencing_gating infStateTwoUsers .loading rfl).2 0 (by decide)⟩

/-- C5: `Run` chooses the append target as follows: a trailing
    `Assistant`-authored message is reused unchanged (no new message), while
    a trailing non-`Assistant` message gets exactly one new empty
    `Assistant` message appended as the target; concretely, running on a
    trailing assistant message `"partial"` routes the next fragments into
    that same message. -/
theorem run_append_target :
    (∀ (sv : SettingsView) (ms : List UiChatMsg) (c : String)
       (st : InferenceStatus) (sb : Bool),
       (ChatView.update ⟨ms ++ [⟨.assistant, c⟩], st, sb⟩ sv .run).map Prod.fst =
         some ⟨ms ++ [⟨.assistant, c⟩], .inferencing, sb⟩) ∧
    (∀ (sv : SettingsView) (ms : List UiChatMsg) (r : Role) (c : String)
       (st : InferenceStatus) (sb : Bool), r ≠ .assistant →
       (ChatView.update ⟨ms ++ [⟨r, c⟩], st, sb⟩ sv .run).map Prod.fst =
         some ⟨ms ++ [⟨r, c⟩, ⟨.assistant, ""⟩], .inferencing, sb⟩) ∧
    ChatView.updates ⟨[⟨.user, "q"⟩, ⟨.assistant, "partial"⟩], .idle, false⟩
        .loading [.run, .completion (.ok ("Hel")), .completion (.ok ("lo"))] =
      some ⟨[⟨.user, "q"⟩, ⟨.assistant, "partialHello"⟩], .inferencing, false⟩ := by
  refine ⟨?_, ?_, rfl⟩
  · intro sv ms c st sb
    simp [ChatView.update]
  · intro sv ms r c st sb hr
    simp [ChatView.update, hr]

/-- Witness for C5 at a concrete trailing-`User` conversation. -/
theorem run_append_target_witness :
    (Role.user ≠ Role.assistant) ∧
    (ChatView.update ⟨[⟨.user, "q"⟩], .idle, false⟩ .loading .run).map Prod.fst =
      some ⟨[⟨.user, "q"⟩, ⟨.assistant, ""⟩], .inferencing, false⟩ :=
  ⟨by decide,
   run_append_target.2.1 .loading [] .user ("q") .idle false (by decide)⟩

/-- C10: the index-taking operations are partial: in range, a role change
    (while `Idle`) updates exactly that message's role, a text edit applies
    to exactly that message, and a deletion removes exactly that message
    keeping the others in order; at or past the message count each of them
    panics (`none`) instead of returning an error. -/
theorem indexed_ops_partial :
    (∀ (s : ChatView) (sv : SettingsView) (i : Nat) (r : Role)
       (h : i < s.messages.length), s.inference_status = .idle →
       s.update sv (.changeRole i r) =
         some ({ s with
                   messages := s.messages.set i
                     ({ s.messages.get ⟨i, h⟩ with role := r }) }, [])) ∧
    (∀ (s : ChatView) (sv : SettingsView) (i : Nat) (a : EditorAction)
       (h : i < s.messages.length),
       s.update sv (.editText i a) =
         some ({ s with
                   messages := s.messages.set i
                     ({ s.messages.get ⟨i, h⟩ with
                         content := a (s.messages.get ⟨i, h⟩).content }) }, [])) ∧
    (∀ (s : ChatView) (sv : SettingsView) (i : Nat), i < s.messages.length →
       s.update sv (.deleteMessage i) =
         some ({ s with messages := s.messages.eraseIdx i }, [])) ∧
    (∀ (s : ChatView) (sv : SettingsView) (i : Nat) (r : Role),
       s.messages.length ≤ i → s.inference_status = .idle →
       s.update sv (.changeRole i r) = none) ∧
    (∀ (s : ChatView) (sv : SettingsView) (i : Nat) (a : EditorAction),
       s.messages.length ≤ i → s.update sv (.editText i a) = none) ∧
    (∀ (s : ChatView) (sv : SettingsView) (i : Nat),
       s.messages.length ≤ i → s.update sv (.deleteMessage i) = none) := by
  refine ⟨?_, ?_, ?_, ?_, ?_, ?_⟩
  · intro s sv i r h hidle
    simp only [ChatView.update]
    rw [if_pos hidle, dif_pos h]
  · intro s sv i a h
    simp only [ChatView.update]
    rw [dif_pos h]
  · intro s sv i h
    simp only [ChatView.update]
    rw [if_pos h]
  · intro s sv i r hle hidle
    simp only [ChatView.update]
    rw [if_pos hidle, dif_neg (by omega)]
  · intro s sv i a hle
    simp only [ChatView.update]
    rw [dif_neg (by omega)]
  · intro s sv i hle
    simp only [ChatView.update]
    rw [if_neg (by omega)]

/-- Witness for C10 at a concrete idle two-message session, one in-range and
    one out-of-range index per operation. -/
theorem indexed_ops_partial_witness :
    ((0 : Nat) < idleStateTwo.messages.length ∧
     idleStateTwo.inference_status = .idle ∧
     idleStateTwo.messages.length ≤ 5) ∧
    idleStateTwo.update .loading (.changeRole 0 .system) =
      some (⟨[⟨.system, "a"⟩, ⟨.user, "b"⟩], .idle, false⟩, []) ∧
    idleStateTwo.update .loading (.editText 0 (fun c => c ++ "!")) =
      some (⟨[⟨.user, "a!"⟩, ⟨.user, "b"⟩], .idle, false⟩, []) ∧
    idleStateTwo.update .loading (.deleteMessage 0) =
      some (⟨[⟨.user, "b"⟩], .idle, false⟩, []) ∧
    idleStateTwo.update .loading (.changeRole 5 .system) = none ∧
    idleStateTwo.update .loading (.editText 5 (fun c => c)) = none ∧
    idleStateTwo.update .loading (.deleteMessage 5) = none :=
  ⟨⟨by decide, rfl, by decide⟩,
   indexed_ops_partial.1 idleStateTwo .loading 0 .system (by decide) rfl,
   indexed_ops_partial.2.1 idleStateTwo .loading 0 (fun c => c ++ "!") (by decide),
   indexed_ops_partial.2.2.1 idleStateTwo .loading 0 (by decide),
   indexed_ops_partial.2.2.2.1 idleStateTwo .loading 5 .system (by decide) rfl,
   indexed_ops_partial.2.2.2.2.1 idleStateTwo .loading 5 (fun c => c) (by decide),
   indexed_ops_partial.2.2.2.2.2 idleStateTwo .loading 5 (by decide)⟩

/-! ## Demo stream fixtures for the adapter claims -/

/-- The wire shape of a delta event carrying content `s`:
    `choices[0].delta.content = s` (spec of the upstream API). -/
def chunkJson (s : String) : Json :=
  .obj [("choices", .arr [.obj [("delta", .obj [("content", .str s)])]])]

/-- The event payload whose delta content is `"Hi"`. -/
def payloadHi : String :=
  "\x7b\"choices\":[\x7b\"delta\":\x7b\"content\":\"Hi\"\x7d\x7d]\x7d"

/-- The event payload whose delta content is `" there"`. -/
def payloadThere : String :=
  "\x7b\"choices\":[\x7b\"delta\":\x7b\"content\":\" there\"\x7d\x7d]\x7d"

/-- A concrete stand-in for `serde_json::from_str` on the demo payloads. -/
def demoParse : String → Option Json := fun s =>
  if s = payloadHi then some (chunkJson ("Hi"))
  else if s = payloadThere then some (chunkJson (" there"))
  else none

/-- A transport sequence: two delta events, the `[DONE]` sentinel, then the
    transport's own benign end-of-stream signal. -/
def demoItems : List (Except ESError Event) :=
  [.ok (.message payloadHi), .ok (.message payloadThere),
   .ok (.message ("[DONE]")), .error .streamEnded]

/-- C6: the `[DONE]` sentinel yields no fragment and no error under any
    parser, a transport-reported clean stream end (`StreamEnded`) terminates
    the sequence without an error item, and a session that received `"Hi"`
    and `" there"` on an initially empty append target before the benign end
    finishes with content `"Hi there"`, status `Idle`, and no error text. -/
theorem benign_termination :
    (∀ from_str : String → Option Json,
       deltaOfEvent from_str (.message ("[DONE]")) = .ok none) ∧
    completions demoParse demoItems = [.ok ("Hi"), .ok (" there")] ∧
    ChatView.updates ⟨[⟨.user, "q"⟩, ⟨.assistant, ""⟩], .inferencing, false⟩
        .loading (runTaskMsgs (completions demoParse demoItems)) =
      some ⟨[⟨.user, "q"⟩, ⟨.assistant, "Hi there"⟩], .idle, false⟩ :=
  ⟨fun _ => rfl, rfl, rfl⟩

/-- C7: for a message payload other than `[DONE]`, the parser fails exactly
    when the payload is not well-formed JSON (the external parse yields
    nothing) or the decoded value lacks a string at
    `/choices/0/delta/content`; a present string is yielded as the fragment,
    and non-message event kinds yield no fragment and no error. -/
theorem delta_parser_cases (from_str : String → Option Json) (data : String)
    (hd : data ≠ "[DONE]") :
    ((∃ e, deltaOfEvent from_str (.message data) = .error e) ↔
       from_str data = none ∨
         ∃ j, from_str data = some j ∧ (j.pointerDelta).bind Json.as_str = none) ∧
    (∀ (j : Json) (s : String), from_str data = some j →
       (j.pointerDelta).bind Json.as_str = some s →
       deltaOfEvent from_str (.message data) = .ok (some s)) ∧
    deltaOfEvent from_str .opened = .ok none := by
  refine ⟨?_, ?_, rfl⟩
  · unfold deltaOfEvent
    dsimp only
    rw [if_neg hd]
    rcases hj : from_str data with _ | j
    · dsimp only
      exact ⟨fun _ => Or.inl rfl, fun _ => ⟨_, rfl⟩⟩
    · dsimp only
      rcases hb : (j.pointerDelta).bind Json.as_str with _ | s
      · exact ⟨fun _ => Or.inr ⟨j, rfl, hb⟩, fun _ => ⟨_, rfl⟩⟩
      · constructor
        · rintro ⟨e, he⟩
          exact Except.noConfusion he
        · rintro (hnone | ⟨j', hj', hb'⟩)
          · exact Option.noConfusion hnone
          · injection hj' with hjj
            subst hjj
            rw [hb] at hb'
            exact Option.noConfusion hb'
  · intro j s hj hs
    unfold deltaOfEvent
    dsimp only
    rw [if_neg hd, hj]
    dsimp only
    rw [hs]

/-- Witness for C7 at a concrete non-sentinel payload. -/
theorem delta_parser_cases_witness :
    (("x" : String) ≠ "[DONE]") ∧
    (((∃ e, deltaOfEvent demoParse (.message ("x")) = .error e) ↔
        demoParse ("x") = none ∨
          ∃ j, demoParse ("x") = some j ∧
            (j.pointerDelta).bind Json.as_str = none) ∧
     (∀ (j : Json) (s : String), demoParse ("x") = some j →
        (j.pointerDelta).bind Json.as_str = some s →
        deltaOfEvent demoParse (.message ("x")) = .ok (some s)) ∧
     deltaOfEvent demoParse .opened = .ok none) :=
  ⟨by decide, delta_parser_cases demoParse ("x") (by decide)⟩

end Playground
